import Mathlib

/-!
Verification development for the Household Ticket System rule engine
(`packages/domain/src/ticketStateMachine.ts`, `packages/domain/src/scoringEngine.ts`).

The three pure units — transition validator, scoring engine, repeat-issue
detector — are shallowly embedded here:
* TypeScript string-literal unions become inductive types;
* `Date` values become their `getTime()` millisecond timestamps (`Int`);
* JavaScript numbers become exact rationals (`ℚ`), matching the engines'
  real-valued arithmetic on integral inputs;
* a thrown `TicketTransitionError` becomes `Except.error` carrying the
  distinct error kind (the human-readable message is abstracted to its kind);
* `String.prototype.toLowerCase` becomes per-character lowercasing.
-/

namespace HouseholdTickets

/-! ## Data model (ticketStateMachine.ts) -/

/-- Source: `type Role = 'mother' | 'father' | 'employee'`. -/
inductive Role
  | mother
  | father
  | employee
deriving DecidableEq

/-- Source: `type TicketStatus = 'open' | 'in_progress' | 'needs_review' | 'closed' | 'skipped'`.
(`open` is a Lean keyword, hence `open_`.) -/
inductive TicketStatus
  | open_
  | in_progress
  | needs_review
  | closed
  | skipped
deriving DecidableEq

/-- Source: `type Severity = 'minor' | 'needs_fix_today' | 'immediate_interrupt'`. -/
inductive Severity
  | minor
  | needs_fix_today
  | immediate_interrupt
deriving DecidableEq

/-- Source: `interface TicketContext`. -/
structure TicketContext where
  id : String
  status : TicketStatus
  isRecurring : Bool
  severity : Severity
  assignedUserId : Option String
deriving DecidableEq

/-- The distinct `TicketTransitionError` messages thrown by `validateTransition`,
abstracted to their kind (each source `throw` site has one constructor). -/
inductive TransitionError
  | terminalClosed      -- "Ticket … is closed. Closed tickets have no outgoing transitions. …"
  | terminalSkipped     -- "Ticket … is skipped. Skipped tickets cannot be transitioned."
  | invalidTransition   -- "Invalid transition: … Valid transitions from …"
  | notRecurring        -- "Ticket … cannot be skipped: only recurring ticket instances may be skipped."
  | requiresAuthority   -- "Transition … requires authority role (mother or father). …"
deriving DecidableEq

/-- Source: `const VALID_TRANSITIONS: Record<TicketStatus, TicketStatus[]>`. -/
def VALID_TRANSITIONS : TicketStatus → List TicketStatus
  | .open_        => [.in_progress, .skipped]
  | .in_progress  => [.needs_review, .skipped]
  | .needs_review => [.closed, .in_progress]
  | .closed       => []
  | .skipped      => []

/-- Source: `const AUTHORITY_ONLY_TRANSITIONS: Array<{ from; to }>`. -/
def AUTHORITY_ONLY_TRANSITIONS : List (TicketStatus × TicketStatus) :=
  [(.needs_review, .closed),
   (.needs_review, .in_progress),  -- rejection/reopen
   (.open_, .skipped),
   (.in_progress, .skipped)]

/-- Source: `function isAuthority(role: Role): boolean`. -/
def isAuthority (role : Role) : Bool :=
  role == Role.mother || role == Role.father

/-- Source: `interface TransitionResult { isRejection: boolean }`. -/
structure TransitionResult where
  isRejection : Bool
deriving DecidableEq

/-- Source: `function validateTransition(from, to, actorRole, ticket)`:
throws (here: `Except.error`) on an invalid transition, returns a
`TransitionResult` on success.  The guard order mirrors the source:
terminal-state check, base-transition validity, recurring-only skip rule,
authority-only rule, then the rejection flag. (`from` is a Lean keyword,
hence `from_`, and likewise `to_`.) -/
def validateTransition (from_ to_ : TicketStatus) (actorRole : Role)
    (ticket : TicketContext) : Except TransitionError TransitionResult :=
  -- Terminal state check
  if from_ = TicketStatus.closed then
    .error .terminalClosed
  else if from_ = TicketStatus.skipped then
    .error .terminalSkipped
  -- Base transition validity
  else if !((VALID_TRANSITIONS from_).contains to_) then
    .error .invalidTransition
  -- Skip transitions only allowed for recurring tickets
  else if to_ == TicketStatus.skipped && !ticket.isRecurring then
    .error .notRecurring
  -- Authority-only transition check
  else if (AUTHORITY_ONLY_TRANSITIONS.any fun t => t.1 == from_ && t.2 == to_)
      && !(isAuthority actorRole) then
    .error .requiresAuthority
  else
    -- Rejection path: needs_review → in_progress triggers penalty
    .ok { isRejection := from_ == TicketStatus.needs_review && to_ == TicketStatus.in_progress }

/-! ## Data model (scoringEngine.ts, canonical severity-weighted engine) -/

/-- Source: `type TicketEventType = 'rejection' | 'failed_inspection' | 'completed' | 'skipped'`. -/
inductive TicketEventType
  | rejection          -- needs_review → in_progress by authority
  | failed_inspection  -- authority closed with rejectedInspection=true
  | completed          -- reached needs_review (submitted for review)
  | skipped            -- recurring instance skipped
deriving DecidableEq

/-- Source: `interface TicketHistory`; `Date`s are `getTime()` millisecond timestamps. -/
structure TicketHistory where
  id : String
  severity : Severity
  isRecurring : Bool
  isInspection : Bool
  openedAt : Int
  submittedAt : Option Int
  events : List TicketEventType
  wasSkipped : Bool
  rejectedInspection : Option Bool
deriving DecidableEq

/-- Source: `interface Period { start: Date; end: Date }` (`end` is a Lean keyword, hence `end_`). -/
structure Period where
  start : Int
  end_ : Int
deriving DecidableEq

/-- Source: `interface ScoreBreakdown`. -/
structure ScoreBreakdown where
  quality : ℚ
  consistency : ℚ
  speed : ℚ
  volume : ℚ
  total : ℚ
deriving DecidableEq

/-- Source: `const SEVERITY_MULTIPLIER: Record<Severity, number>`. -/
def SEVERITY_MULTIPLIER : Severity → ℚ
  | .minor               => 1
  | .needs_fix_today     => 2
  | .immediate_interrupt => 4

/-- Source: `const SPEED_DEADLINE_MS: Record<Severity, number>` (milliseconds). -/
def SPEED_DEADLINE_MS : Severity → Int
  | .immediate_interrupt => 2 * 60 * 60 * 1000   -- 2 hours
  | .needs_fix_today     => 8 * 60 * 60 * 1000   -- 8 hours
  | .minor               => 48 * 60 * 60 * 1000  -- 48 hours

/-- Source: `function isSameCalendarDay(a, b)`: the source compares
`getFullYear`/`getMonth`/`getDate` of the two dates; on millisecond
timestamps this is equality of the enclosing calendar day, embedded as
equality of floor-division day numbers (86400000 ms per day). -/
def isSameCalendarDay (a b : Int) : Bool :=
  a / 86400000 == b / 86400000

/-- Source: `function computeQuality(tickets)`: starts at 100 and subtracts
`15 × mult` per rejection event, `10 × mult` per failed-inspection event. -/
def computeQuality (tickets : List TicketHistory) : ℚ :=
  tickets.foldl
    (fun score ticket =>
      let mult := SEVERITY_MULTIPLIER ticket.severity
      ticket.events.foldl
        (fun s event =>
          if event = TicketEventType.rejection then s - 15 * mult
          else if event = TicketEventType.failed_inspection then s - 10 * mult
          else s)
        score)
    100

/-- Source: `function computeConsistency(tickets)`. -/
def computeConsistency (tickets : List TicketHistory) : ℚ :=
  let recurringTickets := tickets.filter (·.isRecurring)
  let total := recurringTickets.length
  if total = 0 then
    -- No recurring tickets in period: full consistency
    100
  else
    let skippedCount := (recurringTickets.filter (·.wasSkipped)).length
    let skippedPenalty := (skippedCount : ℚ) * (50 / (total : ℚ))
    let hasZeroSkips := skippedCount = 0
    let streakBonus : ℚ := if hasZeroSkips then 10 else 0
    100 - skippedPenalty + streakBonus

/-- Source: `function computeSpeedForTicket(ticket)`; `Math.ceil` on a rational is `Int.ceil`. -/
def computeSpeedForTicket (ticket : TicketHistory) : ℚ :=
  match ticket.submittedAt with
  | none =>
    -- Not yet submitted — treat as ongoing; don't penalize for speed yet
    100
  | some submittedAt =>
    let deadline := SPEED_DEADLINE_MS ticket.severity
    let elapsed := submittedAt - ticket.openedAt
    if elapsed ≤ deadline then
      100
    -- Minor tickets: same-day = 100 (dead re-check of the deadline follows the source)
    else if ticket.severity = Severity.minor
        ∧ isSameCalendarDay ticket.openedAt submittedAt then
      100
    else if ticket.severity = Severity.minor ∧ elapsed ≤ deadline then
      100
    else
      -- Over deadline: lose 5 points per hour, floor at -100
      let hoursOver : Int := ⌈(((elapsed - deadline : Int) : ℚ) / (60 * 60 * 1000))⌉
      let penalty : ℚ := (hoursOver : ℚ) * 5
      max (-100) (100 - penalty)

/-- Source: `function computeSpeed(tickets)`: mean of per-ticket speed over submitted tickets. -/
def computeSpeed (tickets : List TicketHistory) : ℚ :=
  let submitted := tickets.filter (fun t => t.submittedAt.isSome)
  if submitted.length = 0 then
    100
  else
    ((submitted.map computeSpeedForTicket).foldl (· + ·) 0) / (submitted.length : ℚ)

/-- Source: `function computeVolume(completedCount, maxCompletedByAnyUser)`. -/
def computeVolume (completedCount maxCompletedByAnyUser : ℚ) : ℚ :=
  if maxCompletedByAnyUser = 0 then 0
  else completedCount / maxCompletedByAnyUser * 100

/-- Source: `interface ScoringInput`. -/
structure ScoringInput where
  tickets : List TicketHistory
  period : Period
  completedCount : ℚ
  maxCompletedByAnyUser : ℚ
deriving DecidableEq

/-- Source: `function computeScore(input)`: the canonical severity-weighted engine —
weights quality 40%, consistency 30%, speed 20%, volume 10%. -/
def computeScore (input : ScoringInput) : ScoreBreakdown :=
  let quality := computeQuality input.tickets
  let consistency := computeConsistency input.tickets
  let speed := computeSpeed input.tickets
  let volume := computeVolume input.completedCount input.maxCompletedByAnyUser
  let total := quality * 0.4 + consistency * 0.3 + speed * 0.2 + volume * 0.1
  { quality := quality, consistency := consistency, speed := speed,
    volume := volume, total := total }

/-! ## Data model (repeat-issue detector, ticketStateMachine.ts companion file) -/

/-- Source: `String.prototype.toLowerCase`, embedded as per-character lowercasing
(kernel-computable, unlike `String.toLower`). -/
def toLowerCase (s : String) : String :=
  String.mk (s.data.map Char.toLower)

/-- Source: `interface ClosedTicketSummary`. -/
structure ClosedTicketSummary where
  id : String
  area : String
  category : String
  closedAt : Int
deriving DecidableEq

/-- Source: `interface NewTicketInfo`. -/
structure NewTicketInfo where
  area : String
  category : String
  createdAt : Int
deriving DecidableEq

/-- Source: `interface RepeatIssueResult { isRepeat: boolean; previousTicketId?: string }`. -/
structure RepeatIssueResult where
  isRepeat : Bool
  previousTicketId : Option String
deriving DecidableEq

/-- Source: `const REPEAT_WINDOW_MS = 7 * 24 * 60 * 60 * 1000`. -/
def REPEAT_WINDOW_MS : Int := 7 * 24 * 60 * 60 * 1000

/-- Source: `function isRepeatIssue(newTicket, recentClosedTickets)`:
first candidate (in supplied order) with case-insensitively equal area and
category whose `closedAt` lies in `[createdAt − 7 days, createdAt]`. -/
def isRepeatIssue (newTicket : NewTicketInfo)
    (recentClosedTickets : List ClosedTicketSummary) : RepeatIssueResult :=
  let windowStart := newTicket.createdAt - REPEAT_WINDOW_MS
  let found := recentClosedTickets.find? fun t =>
    toLowerCase t.area == toLowerCase newTicket.area &&
    toLowerCase t.category == toLowerCase newTicket.category &&
    windowStart ≤ t.closedAt &&
    t.closedAt ≤ newTicket.createdAt
  match found with
  | some m => { isRepeat := true, previousTicketId := some m.id }
  | none   => { isRepeat := false, previousTicketId := none }

/-! ## Specification-side definitions and concrete example inputs -/

/-- Per-ticket quality penalty as the spec states it: `15 × severityMultiplier`
per rejection event plus `10 × severityMultiplier` per failed-inspection event. -/
def qualityPenalty (t : TicketHistory) : ℚ :=
  15 * SEVERITY_MULTIPLIER t.severity
      * (t.events.countP (· == TicketEventType.rejection) : ℚ)
    + 10 * SEVERITY_MULTIPLIER t.severity
      * (t.events.countP (· == TicketEventType.failed_inspection) : ℚ)

/-- Per-ticket speed score with the hours over the deadline rounded up to the
next whole hour (`Math.ceil`); within deadline scores 100, floor at −100. -/
def speedForTicketCeil (ticket : TicketHistory) : ℚ :=
  match ticket.submittedAt with
  | none => 100
  | some submittedAt =>
    let deadline := SPEED_DEADLINE_MS ticket.severity
    let elapsed := submittedAt - ticket.openedAt
    if elapsed ≤ deadline then 100
    else
      max (-100)
        (100 - 5 * ((⌈(((elapsed - deadline : Int) : ℚ) / (60 * 60 * 1000))⌉ : ℤ) : ℚ))

/-- Modelled from the spec, for comparison with the code: the per-ticket speed
formula exactly as claim C7 words it — 5 points per elapsed hour over the
deadline with the hours-over taken as a real (fractional) value, floored at
−100; within deadline scores 100. -/
def speedForTicketFractional (ticket : TicketHistory) : ℚ :=
  match ticket.submittedAt with
  | none => 100
  | some submittedAt =>
    let deadline := SPEED_DEADLINE_MS ticket.severity
    let elapsed := submittedAt - ticket.openedAt
    if elapsed ≤ deadline then 100
    else max (-100) (100 - 5 * (((elapsed - deadline : Int) : ℚ) / (60 * 60 * 1000)))

/-- Modelled from the spec, for comparison with the code: the claim's speed
dimension — arithmetic mean of the fractional per-ticket scores over submitted
tickets, 100 when none is submitted. -/
def computeSpeedFractional (tickets : List TicketHistory) : ℚ :=
  let submitted := tickets.filter (fun t => t.submittedAt.isSome)
  if submitted.length = 0 then 100
  else ((submitted.map speedForTicketFractional).foldl (· + ·) 0) / (submitted.length : ℚ)

/-- The repeat-match predicate as the spec words it: case-insensitively equal
area and category, and `closedAt` within the inclusive window
`[createdAt − 7 days, createdAt]`. -/
def repeatMatches (newTicket : NewTicketInfo) (t : ClosedTicketSummary) : Bool :=
  toLowerCase t.area == toLowerCase newTicket.area &&
  toLowerCase t.category == toLowerCase newTicket.category &&
  newTicket.createdAt - REPEAT_WINDOW_MS ≤ t.closedAt &&
  t.closedAt ≤ newTicket.createdAt

/-- A concrete scoring input with one clean (non-violating) ticket. -/
def cleanInput : ScoringInput :=
  ⟨[⟨"t1", Severity.minor, false, false, 0, some 7200000,
     [TicketEventType.completed], false, none⟩], ⟨0, 0⟩, 1, 1⟩

/-- A concrete scoring input with two recurring tickets, one of them skipped. -/
def twoRecurringInput : ScoringInput :=
  ⟨[⟨"t1", Severity.minor, true, false, 0, some 7200000,
     [TicketEventType.completed], false, none⟩,
    ⟨"t2", Severity.minor, true, false, 0, none,
     [TicketEventType.skipped], true, none⟩], ⟨0, 0⟩, 1, 1⟩

/-- A concrete scoring input where nobody completed anything. -/
def zeroMaxInput : ScoringInput := ⟨[], ⟨0, 0⟩, 0, 0⟩

/-- An immediate-interrupt ticket submitted 2.5 hours after opening:
half an hour past its 2-hour deadline. -/
def halfHourOverTicket : TicketHistory :=
  ⟨"t1", Severity.immediate_interrupt, false, false, 0, some 9000000,
   [TicketEventType.completed], false, none⟩

/-! ## Claims about the transition validator -/

/-- C1: a ticket whose current status is terminal (`closed` or `skipped`) admits
no transition: for every target status, every actor role and every ticket
context (hence every recurrence flag), `validateTransition` fails, and the
failure is precisely the corresponding terminal-state error — no other rule
(actor role included) can mask it, since the terminal check is evaluated first. -/
theorem validateTransition_terminal_rejects_all (to_ : TicketStatus) (actorRole : Role)
    (ticket : TicketContext) :
    validateTransition TicketStatus.closed to_ actorRole ticket
      = Except.error TransitionError.terminalClosed ∧
    validateTransition TicketStatus.skipped to_ actorRole ticket
      = Except.error TransitionError.terminalSkipped :=
  ⟨rfl, rfl⟩

/-- C3: the two skip transitions (`open → skipped`, `in_progress → skipped`) on a
non-recurring ticket fail with the not-recurring error for every actor role,
authority roles included. -/
theorem validateTransition_skip_not_recurring (from_ : TicketStatus) (actorRole : Role)
    (ticket : TicketContext)
    (hf : from_ = TicketStatus.open_ ∨ from_ = TicketStatus.in_progress)
    (hrec : ticket.isRecurring = false) :
    validateTransition from_ TicketStatus.skipped actorRole ticket
      = Except.error TransitionError.notRecurring := by
  rcases ticket with ⟨id, status, rec, sev, asg⟩
  cases hrec
  rcases hf with rfl | rfl <;> rfl

/-- Witness for C3: a mother cannot skip a concrete non-recurring open ticket. -/
theorem validateTransition_skip_not_recurring_witness :
    validateTransition TicketStatus.open_ TicketStatus.skipped Role.mother
      ⟨"t1", TicketStatus.open_, false, Severity.minor, none⟩
      = Except.error TransitionError.notRecurring :=
  validateTransition_skip_not_recurring TicketStatus.open_ Role.mother
    ⟨"t1", TicketStatus.open_, false, Severity.minor, none⟩ (Or.inl rfl) rfl

/-- C4: whenever `validateTransition` succeeds, the returned result has
`isRejection = true` exactly when the transition pair is
`needs_review → in_progress`; every other successful transition reports
`isRejection = false`. -/
theorem validateTransition_isRejection_iff (from_ to_ : TicketStatus) (actorRole : Role)
    (ticket : TicketContext) (r : TransitionResult)
    (h : validateTransition from_ to_ actorRole ticket = Except.ok r) :
    r.isRejection = true
      ↔ from_ = TicketStatus.needs_review ∧ to_ = TicketStatus.in_progress := by
  rcases ticket with ⟨id, status, rec, sev, asg⟩
  cases from_ <;> cases to_ <;> cases actorRole <;> cases rec <;>
    simp_all [validateTransition, VALID_TRANSITIONS, AUTHORITY_ONLY_TRANSITIONS, isAuthority] <;>
    (cases h; decide)

/-- Witness for C4: a mother rejecting concrete submitted work
(`needs_review → in_progress`) yields a result, and that result has
`isRejection = true`. -/
theorem validateTransition_isRejection_iff_witness :
    TransitionResult.isRejection ⟨true⟩ = true :=
  (validateTransition_isRejection_iff TicketStatus.needs_review TicketStatus.in_progress
      Role.mother ⟨"t1", TicketStatus.needs_review, false, Severity.minor, none⟩
      ⟨true⟩ rfl).mpr ⟨rfl, rfl⟩

/-- C2 counterexample: the claim says an authority actor always succeeds on each
authority-gated transition with all other inputs held fixed; but a mother
attempting `open → skipped` on a non-recurring ticket fails (with the
not-recurring error), so the authority half of the claim is false as stated. -/
theorem validateTransition_authority_not_always_ok :
    validateTransition TicketStatus.open_ TicketStatus.skipped Role.mother
      ⟨"t2", TicketStatus.open_, false, Severity.minor, none⟩
      = Except.error TransitionError.notRecurring :=
  rfl

/-- C2 (amended): for every pair in `AUTHORITY_ONLY_TRANSITIONS` and every
ticket, the non-authority actor (`employee`) always fails; an authority actor
(`mother` or `father`) always succeeds provided that, when the target status is
`skipped`, the ticket is recurring. -/
theorem validateTransition_authority_gate (p : TicketStatus × TicketStatus)
    (hp : p ∈ AUTHORITY_ONLY_TRANSITIONS) (ticket : TicketContext) (actorRole : Role) :
    (∃ e, validateTransition p.1 p.2 Role.employee ticket = Except.error e) ∧
    (isAuthority actorRole = true →
      (p.2 = TicketStatus.skipped → ticket.isRecurring = true) →
      ∃ r, validateTransition p.1 p.2 actorRole ticket = Except.ok r) := by
  rcases ticket with ⟨id, status, rec, sev, asg⟩
  simp only [AUTHORITY_ONLY_TRANSITIONS, List.mem_cons, List.not_mem_nil, or_false] at hp
  rcases hp with rfl | rfl | rfl | rfl <;> cases actorRole <;> cases rec <;>
    (refine ⟨⟨_, rfl⟩, ?_⟩; intro hA hrec) <;>
    first
      | exact Bool.noConfusion hA
      | exact Bool.noConfusion (hrec rfl)
      | exact ⟨_, rfl⟩

/-- Witness for C2 (amended): on the concrete pair `open → skipped` with a
recurring ticket, the employee fails and the mother succeeds. -/
theorem validateTransition_authority_gate_witness :
    (∃ e, validateTransition TicketStatus.open_ TicketStatus.skipped Role.employee
        ⟨"t3", TicketStatus.open_, true, Severity.minor, none⟩ = Except.error e) ∧
    (∃ r, validateTransition TicketStatus.open_ TicketStatus.skipped Role.mother
        ⟨"t3", TicketStatus.open_, true, Severity.minor, none⟩ = Except.ok r) := by
  have h := validateTransition_authority_gate (TicketStatus.open_, TicketStatus.skipped)
    (by decide) ⟨"t3", TicketStatus.open_, true, Severity.minor, none⟩ Role.mother
  exact ⟨h.1, h.2 rfl (fun _ => rfl)⟩

/-! ## Claims about the scoring engine and the repeat-issue detector -/

lemma quality_foldl_events (mult : ℚ) (events : List TicketEventType) (s : ℚ) :
    events.foldl
        (fun s event =>
          if event = TicketEventType.rejection then s - 15 * mult
          else if event = TicketEventType.failed_inspection then s - 10 * mult
          else s) s
      = s - (15 * mult * (events.countP (· == TicketEventType.rejection) : ℚ)
             + 10 * mult * (events.countP (· == TicketEventType.failed_inspection) : ℚ)) := by
  induction events generalizing s with
  | nil => simp
  | cons e es ih =>
    cases e <;> simp [List.countP_cons, ih] <;> ring

lemma quality_foldl_tickets (tickets : List TicketHistory) (s : ℚ) :
    tickets.foldl
        (fun score ticket =>
          let mult := SEVERITY_MULTIPLIER ticket.severity
          ticket.events.foldl
            (fun s event =>
              if event = TicketEventType.rejection then s - 15 * mult
              else if event = TicketEventType.failed_inspection then s - 10 * mult
              else s) score) s
      = s - (tickets.map qualityPenalty).sum := by
  induction tickets generalizing s with
  | nil => simp
  | cons t ts ih =>
    rw [List.foldl_cons, ih]
    simp only [quality_foldl_events, List.map_cons, List.sum_cons, qualityPenalty]
    ring

lemma severity_multiplier_nonneg (sev : Severity) : 0 ≤ SEVERITY_MULTIPLIER sev := by
  cases sev <;> norm_num [SEVERITY_MULTIPLIER]

lemma qualityPenalty_nonneg (t : TicketHistory) : 0 ≤ qualityPenalty t := by
  have h1 := severity_multiplier_nonneg t.severity
  have c1 : (0:ℚ) ≤ (t.events.countP (· == TicketEventType.rejection) : ℚ) := Nat.cast_nonneg _
  have c2 : (0:ℚ) ≤ (t.events.countP (· == TicketEventType.failed_inspection) : ℚ) :=
    Nat.cast_nonneg _
  have p1 : (0:ℚ) ≤ 15 * SEVERITY_MULTIPLIER t.severity
      * (t.events.countP (· == TicketEventType.rejection) : ℚ) :=
    mul_nonneg (mul_nonneg (by norm_num) h1) c1
  have p2 : (0:ℚ) ≤ 10 * SEVERITY_MULTIPLIER t.severity
      * (t.events.countP (· == TicketEventType.failed_inspection) : ℚ) :=
    mul_nonneg (mul_nonneg (by norm_num) h1) c2
  unfold qualityPenalty
  linarith

/-- C5: the quality dimension of `computeScore` equals 100 minus the sum, over
all tickets, of `15 × severityMultiplier` per rejection event and
`10 × severityMultiplier` per failed-inspection event (multiplier 1/2/4 for
minor / needs_fix_today / immediate_interrupt); quality never exceeds 100, and
with zero violating events it is exactly 100. -/
theorem computeScore_quality_spec (input : ScoringInput) :
    (computeScore input).quality = 100 - (input.tickets.map qualityPenalty).sum ∧
    (computeScore input).quality ≤ 100 ∧
    ((∀ t ∈ input.tickets, t.events.countP (· == TicketEventType.rejection) = 0 ∧
        t.events.countP (· == TicketEventType.failed_inspection) = 0) →
      (computeScore input).quality = 100) := by
  have heq : (computeScore input).quality = 100 - (input.tickets.map qualityPenalty).sum := by
    show computeQuality input.tickets = _
    unfold computeQuality
    exact quality_foldl_tickets input.tickets 100
  have hnn : 0 ≤ (input.tickets.map qualityPenalty).sum := by
    apply List.sum_nonneg
    intro x hx
    rcases List.mem_map.mp hx with ⟨t, _, rfl⟩
    exact qualityPenalty_nonneg t
  refine ⟨heq, by rw [heq]; linarith, ?_⟩
  intro hz
  rw [heq]
  have hsum : (input.tickets.map qualityPenalty).sum = 0 := by
    apply List.sum_eq_zero
    intro x hx
    rcases List.mem_map.mp hx with ⟨t, ht, rfl⟩
    rcases hz t ht with ⟨h1, h2⟩
    simp [qualityPenalty, h1, h2]
  rw [hsum]; ring

/-- Witness for C5: a concrete input whose single ticket has no violating
event scores exactly 100 on quality. -/
theorem computeScore_quality_spec_witness :
    (computeScore cleanInput).quality = 100 :=
  (computeScore_quality_spec cleanInput).2.2 (by decide)

/-- C6: the consistency dimension of `computeScore` is 100 when there are no
recurring tickets; with `n ≠ 0` recurring tickets of which `k` were skipped it
is `100 − k × (50 / n)` when `k > 0`, and `100 + 10` (the perfect-streak
bonus, mutually exclusive with any skip penalty) when `k = 0`. -/
theorem computeScore_consistency_spec (input : ScoringInput) :
    ((input.tickets.filter (·.isRecurring)).length = 0 →
      (computeScore input).consistency = 100) ∧
    ((input.tickets.filter (·.isRecurring)).length ≠ 0 →
      0 < ((input.tickets.filter (·.isRecurring)).filter (·.wasSkipped)).length →
      (computeScore input).consistency
        = 100 - ((((input.tickets.filter (·.isRecurring)).filter (·.wasSkipped)).length : ℚ)
            * (50 / ((input.tickets.filter (·.isRecurring)).length : ℚ)))) ∧
    ((input.tickets.filter (·.isRecurring)).length ≠ 0 →
      ((input.tickets.filter (·.isRecurring)).filter (·.wasSkipped)).length = 0 →
      (computeScore input).consistency = 100 + 10) := by
  refine ⟨fun h => ?_, fun hn hk => ?_, fun hn hk => ?_⟩
  · show computeConsistency input.tickets = 100
    simp only [computeConsistency]
    rw [if_pos h]
  · show computeConsistency input.tickets = _
    simp only [computeConsistency]
    rw [if_neg hn, if_neg hk.ne', add_zero]
  · show computeConsistency input.tickets = 100 + 10
    simp only [computeConsistency]
    rw [if_neg hn, if_pos hk, hk]
    norm_num

/-- Witness for C6: two concrete recurring tickets with one skipped score
`100 − 1 × (50/2) = 75` on consistency. -/
theorem computeScore_consistency_spec_witness :
    (computeScore twoRecurringInput).consistency = 75 := by
  have h := (computeScore_consistency_spec twoRecurringInput).2.1 (by decide) (by decide)
  rw [h]
  norm_num [twoRecurringInput, List.filter]

/-- C7 counterexample: the claim computes the hours over the deadline as a real
(fractional) value, but the code rounds them up (`Math.ceil`).  For a concrete
ticket half an hour past its 2-hour deadline the code's speed is 95 while the
claim's fractional formula gives 97.5, so the claim is false as stated. -/
theorem computeSpeed_not_fractional :
    computeSpeed [halfHourOverTicket] = 95 ∧
    computeSpeedFractional [halfHourOverTicket] = 195 / 2 ∧
    (95 : ℚ) ≠ 195 / 2 := by
  have hc : (⌈(1 / 2 : ℚ)⌉ : ℤ) = 1 := by
    rw [Int.ceil_eq_iff]
    constructor <;> norm_num
  have hm : ¬(Severity.immediate_interrupt = Severity.minor) := by decide
  refine ⟨?_, ?_, by norm_num⟩
  · show computeSpeed [halfHourOverTicket] = 95
    unfold computeSpeed computeSpeedForTicket halfHourOverTicket
    norm_num [List.filter, SPEED_DEADLINE_MS, isSameCalendarDay, hc, hm]
  · unfold computeSpeedFractional speedForTicketFractional halfHourOverTicket
    norm_num [List.filter, SPEED_DEADLINE_MS]

lemma sameCalendarDay_diff_lt (a b : Int) (h : isSameCalendarDay a b = true) :
    b - a < 86400000 := by
  simp only [isSameCalendarDay, beq_iff_eq] at h
  omega

lemma computeSpeedForTicket_eq_ceil (t : TicketHistory) :
    computeSpeedForTicket t = speedForTicketCeil t := by
  unfold computeSpeedForTicket speedForTicketCeil
  cases ht : t.submittedAt with
  | none => rfl
  | some sub =>
    simp only []
    by_cases h1 : sub - t.openedAt ≤ SPEED_DEADLINE_MS t.severity
    · rw [if_pos h1, if_pos h1]
    · rw [if_neg h1, if_neg h1]
      by_cases h2 : t.severity = Severity.minor ∧ isSameCalendarDay t.openedAt sub = true
      · exfalso
        have hd : SPEED_DEADLINE_MS t.severity = 172800000 := by
          rw [h2.1]; rfl
        have hlt := sameCalendarDay_diff_lt t.openedAt sub h2.2
        rw [hd] at h1
        omega
      · rw [if_neg h2]
        by_cases h3 : t.severity = Severity.minor ∧ sub - t.openedAt ≤ SPEED_DEADLINE_MS t.severity
        · exact absurd h3.2 h1
        · rw [if_neg h3]
          ring_nf

/-- C7 (amended): the speed dimension of `computeScore` is the arithmetic mean,
over tickets with a submission time, of a per-ticket score that is 100 within
the severity deadline (2 h / 8 h / 48 h) and otherwise
`100 − 5 × ⌈hours over the deadline⌉` — the hours-over rounded UP to the next
whole hour, not fractional — floored at −100 per ticket; 100 when no ticket
was submitted.  (The source's unreachable same-calendar-day re-check for minor
tickets is proved dead along the way.) -/
theorem computeScore_speed_spec (input : ScoringInput) :
    (computeScore input).speed
      = if (input.tickets.filter fun t => t.submittedAt.isSome) = [] then 100
        else ((input.tickets.filter fun t => t.submittedAt.isSome).map speedForTicketCeil).sum
             / ((input.tickets.filter fun t => t.submittedAt.isSome).length : ℚ) := by
  show computeSpeed input.tickets = _
  unfold computeSpeed
  have hfun : computeSpeedForTicket = speedForTicketCeil :=
    funext computeSpeedForTicket_eq_ceil
  by_cases h : (input.tickets.filter fun t => t.submittedAt.isSome).length = 0
  · rw [if_pos h, if_pos (List.length_eq_zero.mp h)]
  · rw [if_neg h, if_neg (fun hh : _ = ([] : List TicketHistory) => h (by rw [hh]; rfl))]
    rw [hfun]
    congr 1
    rw [List.sum_eq_foldl]

/-- C8: the volume dimension of `computeScore` is exactly 0 when
`maxCompletedByAnyUser = 0` (no division-by-zero fault) and otherwise
`(completedCount ÷ maxCompletedByAnyUser) × 100`; the total is exactly
`quality × 0.40 + consistency × 0.30 + speed × 0.20 + volume × 0.10` with no
floor or ceiling applied. -/
theorem computeScore_volume_total_spec (input : ScoringInput) :
    (input.maxCompletedByAnyUser = 0 → (computeScore input).volume = 0) ∧
    (input.maxCompletedByAnyUser ≠ 0 →
      (computeScore input).volume
        = input.completedCount / input.maxCompletedByAnyUser * 100) ∧
    (computeScore input).total
      = (computeScore input).quality * 0.40 + (computeScore input).consistency * 0.30
        + (computeScore input).speed * 0.20 + (computeScore input).volume * 0.10 := by
  refine ⟨fun h => ?_, fun h => ?_, ?_⟩
  · show computeVolume _ _ = 0
    simp only [computeVolume]
    rw [if_pos h]
  · show computeVolume _ _ = _
    simp only [computeVolume]
    rw [if_neg h]
  · simp only [computeScore]
    norm_num

/-- Witness for C8: the concrete all-zero input has volume 0. -/
theorem computeScore_volume_total_spec_witness :
    (computeScore zeroMaxInput).volume = 0 :=
  (computeScore_volume_total_spec zeroMaxInput).1 rfl

/-- C9: `isRepeatIssue` returns `{isRepeat := true, previousTicketId := m.id}`
for the first candidate `m` (in the supplied order) matching the new ticket,
and `{isRepeat := false}` with no id when none matches (including the empty
list); for candidates with case-insensitively equal area and category, matching
holds exactly when `closedAt` lies in the inclusive window
`[createdAt − 7 days, createdAt]` — so closing exactly 7 days before matches,
and any earlier moment (e.g. 7 days + 1 s before) does not. -/
theorem isRepeatIssue_spec (nt : NewTicketInfo) (l : List ClosedTicketSummary) :
    (isRepeatIssue nt l
      = match l.find? (repeatMatches nt) with
        | some m => ⟨true, some m.id⟩
        | none => ⟨false, none⟩) ∧
    (∀ t : ClosedTicketSummary,
      toLowerCase t.area = toLowerCase nt.area →
      toLowerCase t.category = toLowerCase nt.category →
      (repeatMatches nt t = true ↔
        nt.createdAt - 7 * 24 * 60 * 60 * 1000 ≤ t.closedAt ∧ t.closedAt ≤ nt.createdAt)) := by
  constructor
  · rfl
  · intro t ha hcat
    simp [repeatMatches, REPEAT_WINDOW_MS, ha, hcat]

/-- Witness for C9: a concrete candidate with upper-case area/category closed
exactly 7 days before the new ticket matches (inclusive boundary). -/
theorem isRepeatIssue_spec_witness :
    repeatMatches ⟨"kitchen", "cleaning", 1705320000000⟩
        ⟨"old-1", "KITCHEN", "CLEANING", 1705320000000 - 7 * 24 * 60 * 60 * 1000⟩ = true :=
  ((isRepeatIssue_spec ⟨"kitchen", "cleaning", 1705320000000⟩ []).2
      ⟨"old-1", "KITCHEN", "CLEANING", 1705320000000 - 7 * 24 * 60 * 60 * 1000⟩
      (by decide) (by decide)).mpr ⟨by decide, by decide⟩

/-- C10 (implicit invariant): the consistency dimension of `computeScore`
always lies in `[50, 110]` — the skip penalty `k × (50/n)` never exceeds 50
because `k ≤ n`, and the +10 bonus applies only when the penalty is 0; in
particular consistency is never negative. -/
theorem computeScore_consistency_bounds (input : ScoringInput) :
    50 ≤ (computeScore input).consistency ∧ (computeScore input).consistency ≤ 110 := by
  show 50 ≤ computeConsistency input.tickets ∧ computeConsistency input.tickets ≤ 110
  simp only [computeConsistency]
  by_cases h : (input.tickets.filter (·.isRecurring)).length = 0
  · rw [if_pos h]
    norm_num
  · rw [if_neg h]
    set n := (input.tickets.filter (·.isRecurring)).length with hn
    set k := ((input.tickets.filter (·.isRecurring)).filter (·.wasSkipped)).length with hk
    have hkn : k ≤ n := List.length_filter_le _ _
    have hn1 : 1 ≤ n := Nat.one_le_iff_ne_zero.mpr h
    have hnQ : (0:ℚ) < (n:ℚ) := by exact_mod_cast hn1
    have hkQ : (k:ℚ) ≤ (n:ℚ) := by exact_mod_cast hkn
    have hpen0 : (0:ℚ) ≤ (k:ℚ) * (50 / (n:ℚ)) :=
      mul_nonneg (Nat.cast_nonneg _) (by positivity)
    have hpen50 : (k:ℚ) * (50 / (n:ℚ)) ≤ 50 := by
      calc (k:ℚ) * (50 / (n:ℚ)) ≤ (n:ℚ) * (50 / (n:ℚ)) :=
            mul_le_mul_of_nonneg_right hkQ (by positivity)
        _ = 50 := by field_simp
    by_cases hk0 : k = 0
    · rw [if_pos hk0, hk0]
      norm_num
    · rw [if_neg hk0, add_zero]
      constructor <;> linarith

end HouseholdTickets
